import Mathlib

/-!
# Verification of the slurm-admin Lifecycle Monitor core

Shallow embedding of the `slurm-admin` repository's supervisor / recorder /
transport subsystem, translated from the Python sources:

* `src/database.py`            — `SlurmDatabase` (direct-store transport)
* `src/src/slurm_admin/slm.py` — `SlmSDK` (lifecycle recorder + process supervisor)
* `src/src/slurm_admin/http_client.py` and `api_service.py` — remote-API transport

Python dictionaries of keyword arguments are modelled as association lists of
`String × Option Val` (a `none` value is Python's `None`); the MySQL row is a
field map `String → Option Val` (`none` is SQL NULL).  Wall-clock timestamps
(`datetime.now()`) are passed in as an abstract `now : String` parameter.
-/

namespace SlurmAdmin

/-- A value stored in a column or passed as a keyword argument: either a
string or an integer (the only two value shapes the Python code passes, e.g.
`command="..."` and `exit_code=0`). -/
inductive Val where
  | s (v : String)
  | i (v : Int)
deriving DecidableEq, Repr

/-- A Python `**kwargs` mapping: field name to optionally-`None` value, in
iteration order. -/
abbrev Kwargs := List (String × Option Val)

/-- One row of the `slurm_jobs` table.  `job_id` and `job_name` are the two
`NOT NULL` identity columns; every other column is modelled by the partial
field map `fields` (`none` = SQL NULL). -/
structure Row where
  job_id : String
  job_name : String
  fields : String → Option Val

/-- One row of the `slurm_events` table. -/
structure EventRow where
  job_id : String
  event_type : String
  event_status : String
  details : String
  /-- the JSON-serialised `metadata` column (`none` = NULL); claims never
  inspect its contents, only its presence, so the serialised dict is kept
  abstract as the timestamp string it carries. -/
  metadata : Option String

/-- The direct-store transport (`SlurmDatabase` in `src/database.py`):
`enabled` is the `self.enabled` flag, `connected` models
`self.connection is not None` (both are checked at the top of every
operation), and `rows`/`events` are the two tables. -/
structure SlurmDatabase where
  enabled : Bool
  connected : Bool
  rows : List Row
  events : List EventRow

/-- Overwrite one column of a field map (one `SET key = value` item). -/
def setField (f : String → Option Val) (k : String) (v : Val) : String → Option Val :=
  fun x => if x = k then some v else f x

/-- Apply the non-`None` entries of a kwargs mapping to a field map, in
iteration order — the Python loop
`for key, value in kwargs.items(): if value is not None: update_fields.append(...)`
followed by one `UPDATE ... SET ...`. -/
def applyNonNull (f : String → Option Val) (kws : Kwargs) : String → Option Val :=
  kws.foldl (fun acc kv =>
    match kv.2 with
    | some v => setField acc kv.1 v
    | none => acc) f

/-- `status → timestamp column` map from `SlurmDatabase.update_job_status`. -/
def status_time_map (status : String) : Option String :=
  if status = "SUBMITTED" then some "submitted_at"
  else if status = "RUNNING" then some "started_at"
  else if status = "COMPLETED" then some "completed_at"
  else if status = "FAILED" then some "completed_at"
  else if status = "TERMINATING" then some "completed_at"
  else none

/-- `SlurmDatabase.update_job_status` (src/database.py, lines 178–216).
Builds `SET status = %s`, the timestamp stamp for the fixed statuses, and the
non-`None` kwargs, then runs one
`UPDATE slurm_jobs ... WHERE job_id = %s` and returns `True` — the UPDATE
raises no exception when zero rows match, and the affected-row count is never
consulted, so `True` is returned whether or not a matching record exists.
Returns `False` only on the disabled/unconnected early-out (or an SQL
exception, which these well-formed statements do not produce). -/
def update_job_status (db : SlurmDatabase) (job_id status now : String)
    (kws : Kwargs) : SlurmDatabase × Bool :=
  if db.enabled && db.connected then
    let upd : (String → Option Val) → (String → Option Val) := fun f =>
      let f1 := setField f "status" (Val.s status)
      let f2 := match status_time_map status with
        | some tf => setField f1 tf (Val.s now)
        | none => f1
      applyNonNull f2 kws
    ({ db with rows := db.rows.map (fun r =>
        if r.job_id = job_id then { r with fields := upd r.fields } else r) }, true)
  else (db, false)

/-- `SlurmDatabase.register_job` (src/database.py, lines 136–176).
If a row with this `job_id` exists, apply only the non-`None` kwargs as an
update; otherwise insert a new row whose columns are `job_id`, `job_name`
and the non-`None` kwargs.  (The `lastrowid` return value is not modelled;
no claim mentions it.) -/
def register_job (db : SlurmDatabase) (job_id job_name : String)
    (kws : Kwargs) : SlurmDatabase :=
  if db.enabled && db.connected then
    if db.rows.any (fun r => r.job_id = job_id) then
      { db with rows := db.rows.map (fun r =>
          if r.job_id = job_id then { r with fields := applyNonNull r.fields kws } else r) }
    else
      { db with rows := db.rows ++
          [{ job_id := job_id, job_name := job_name,
             fields := applyNonNull (fun _ => none) kws }] }
  else db

/-- `SlurmDatabase.log_event` (src/database.py, lines 218–239): an
unconditional `INSERT INTO slurm_events`, independent of whether the
referenced job exists. -/
def log_event (db : SlurmDatabase) (job_id event_type event_status details : String)
    (metadata : Option String) : SlurmDatabase :=
  if db.enabled && db.connected then
    { db with events := db.events ++
        [{ job_id := job_id, event_type := event_type, event_status := event_status,
           details := details, metadata := metadata }] }
  else db

/-! ## Remote-API transport

`http_client.py` serialises each operation as one JSON POST and
`api_service.py` deserialises it, drops the entries whose value is `null`
(`if key in data and data[key] is not None`), and calls the same
`SlurmDatabase` methods on the service's database.  A transport-level or
HTTP-level failure is caught inside `SlmHTTPClient._request` and surfaces as
`None`, which the operation wrappers turn into `False`/`None` — never an
exception.  The remote transport is therefore modelled as the service-side
database plus the api_service marshalling. -/

/-- Remote path of `update_job_status`: `SlmHTTPClient.update_job_status` →
`POST /api/job/status` → `api_service.update_job_status`, which filters the
`None`-valued optional fields and calls the database layer; the client's
boolean is the endpoint's `success` flag, which mirrors the database
return value. -/
def http_update_job_status (st : SlurmDatabase) (job_id status now : String)
    (kws : Kwargs) : SlurmDatabase × Bool :=
  update_job_status st job_id status now (kws.filter (fun kv => kv.2.isSome))

/-- Remote path of `register_job`: the api_service endpoint filters
`None`-valued optional fields before calling `SlurmDatabase.register_job`. -/
def http_register_job (st : SlurmDatabase) (job_id job_name : String)
    (kws : Kwargs) : SlurmDatabase :=
  register_job st job_id job_name (kws.filter (fun kv => kv.2.isSome))

/-- Remote path of `log_event` via `POST /api/job/event`. -/
def http_log_event (st : SlurmDatabase) (job_id event_type event_status details : String)
    (metadata : Option String) : SlurmDatabase :=
  log_event st job_id event_type event_status details metadata

/-! ## The Lifecycle Recorder / Process Supervisor (`SlmSDK`) -/

/-- `SlmSDK` (src/src/slurm_admin/slm.py).  `db` is the direct-store
transport (`self.db`), `httpRemote` the remote-API transport (`self.http`)
carried together with the service-side database it writes through; at most
one is `some` in any state the constructor produces, and both are `none`
when no transport initialised. -/
structure SDK where
  job_id : String
  job_name : String
  job_nodes : String
  job_cpus : String
  job_gpus : String
  job_mem : String
  job_partition : String
  db : Option SlurmDatabase
  httpRemote : Option SlurmDatabase

/-- `SlmSDK._update_job_status` (slm.py lines 77–83):
`if self.db: ... elif self.http: ... return False`. -/
def SDK.update_status (sdk : SDK) (status now : String) (kws : Kwargs) : SDK × Bool :=
  match sdk.db with
  | some d =>
      let (d2, ok) := update_job_status d sdk.job_id status now kws
      ({ sdk with db := some d2 }, ok)
  | none =>
    match sdk.httpRemote with
    | some st =>
        let (st2, ok) := http_update_job_status st sdk.job_id status now kws
        ({ sdk with httpRemote := some st2 }, ok)
    | none => (sdk, false)

/-- `SlmSDK._log_event` (slm.py lines 70–75); the Python method has no
`return` statement, so its value is `None` on every path. -/
def SDK.log_ev (sdk : SDK) (event_type event_status details : String)
    (metadata : Option String) : SDK :=
  match sdk.db with
  | some d =>
      { sdk with db := some (log_event d sdk.job_id event_type event_status details metadata) }
  | none =>
    match sdk.httpRemote with
    | some st =>
        let st2 := http_log_event st sdk.job_id event_type event_status details metadata
        { sdk with httpRemote := some st2 }
    | none => sdk

/-- `SlmSDK.log_status` (slm.py lines 85–89): one `"lifecycle"` event whose
metadata is the serialised `{"timestamp": now}` dict. -/
def SDK.log_status (sdk : SDK) (status details now : String) : SDK :=
  sdk.log_ev "lifecycle" status details (some now)

/-- `SlmSDK.register_job` (slm.py lines 91–107): builds the `job_data` dict
(resource fields from the SDK state plus `status = 'SUBMITTED'`) and calls
the transport's `register_job` with `submission_source` as an extra keyword
argument.  On the remote path the client omits `submission_source` from the
payload when it is falsy, which coincides with the service-side `None`
filter for the values this program passes. -/
def SDK.register (sdk : SDK) (script_path command submission_source : Option String) : SDK :=
  let kws : Kwargs :=
    [("submission_source", submission_source.map Val.s),
     ("script_path", script_path.map Val.s),
     ("command", command.map Val.s),
     ("nodes", some (Val.s sdk.job_nodes)),
     ("cpus", some (Val.s sdk.job_cpus)),
     ("gpus", some (Val.s sdk.job_gpus)),
     ("memory", some (Val.s sdk.job_mem)),
     ("partition_name", some (Val.s sdk.job_partition)),
     ("status", some (Val.s "SUBMITTED"))]
  match sdk.db with
  | some d => { sdk with db := some (register_job d sdk.job_id sdk.job_name kws) }
  | none =>
    match sdk.httpRemote with
    | some st => { sdk with httpRemote := some (http_register_job st sdk.job_id sdk.job_name kws) }
    | none => sdk

/-! ## Environment inspection helpers

Python `os.getenv(k)` is `env k : Option String`; `os.getenv(k, d)` is
`getenvD`; `x or y` on strings treats `None` and `""` as falsy. -/

/-- `os.getenv(key, default)`. -/
def getenvD (env : String → Option String) (key dflt : String) : String :=
  (env key).getD dflt

/-- Python truthiness of an optional string (`None` and `""` are falsy). -/
def pyTruthy (x : Option String) : Bool :=
  match x with
  | some s => s ≠ ""
  | none => false

/-- Python `x or y` where `x` is an optional string. -/
def pyOr (x : Option String) (y : String) : String :=
  match x with
  | some s => if s = "" then y else s
  | none => y

/-- Decimal value of a run of ASCII digits, or `none` when the run is empty
or contains a non-digit. -/
def parseNatDigits (cs : List Char) : Option Nat :=
  if cs.isEmpty then none
  else if cs.all Char.isDigit then
    some (cs.foldl (fun acc c => 10 * acc + (c.toNat - '0'.toNat)) 0)
  else none

/-- Model of Python `int(s)` as a partial function: an optional leading `-`
followed by one or more decimal digits.  (Python additionally accepts
surrounding whitespace, a leading `+` and digit-group underscores; the
strings these claims evaluate are plain decimal literals or non-numeric
words, on which both parsers agree.) -/
def pyInt? (s : String) : Option Int :=
  match s.data with
  | '-' :: rest => (parseNatDigits rest).map (fun n => -(n : Int))
  | cs => (parseNatDigits cs).map (fun n => (n : Int))

/-- `self.job_cpus` as assigned in `monitor_run` (slm.py line 127):
`os.getenv('SLURM_CPUS_PER_TASK', os.getenv('SLURM_CPUS_ON_NODE', 'N/A'))`. -/
def job_cpus_of (env : String → Option String) : String :=
  getenvD env "SLURM_CPUS_PER_TASK" (getenvD env "SLURM_CPUS_ON_NODE" "N/A")

/-- The memory-resolution block of `monitor_run` (slm.py lines 129–137):

```python
self.job_mem = os.getenv('SLURM_MEM_PER_NODE') or os.getenv('SLURM_MEM_PER_CPU', 'N/A')
if self.job_mem != 'N/A' and os.getenv('SLURM_MEM_PER_CPU'):
    cpus = int(self.job_cpus) if self.job_cpus != 'N/A' else 1
    try:
        self.job_mem = f"{int(self.job_mem) * cpus}MB"
    except:
        pass
```

`cpus = int(self.job_cpus)` sits *outside* the `try`, so a present but
non-integer CPU string raises an uncaught `ValueError`, modelled as
`Except.error`; an unparsable memory string is swallowed by the
`except: pass`, leaving the raw value. -/
def resolve_job_mem (env : String → Option String) (job_cpus : String) :
    Except String String :=
  let job_mem := pyOr (env "SLURM_MEM_PER_NODE") (getenvD env "SLURM_MEM_PER_CPU" "N/A")
  if (job_mem != "N/A") && pyTruthy (env "SLURM_MEM_PER_CPU") then
    match (if job_cpus != "N/A" then pyInt? job_cpus else some 1) with
    | none => Except.error "ValueError"
    | some cpus =>
      match pyInt? job_mem with
      | some m => Except.ok (toString (m * cpus) ++ "MB")
      | none => Except.ok job_mem
  else Except.ok job_mem

/-! ## The signal-driven state machine of `monitor_run`

Signal numbers use their Linux values; handlers are installed only for these
four (slm.py lines 197–200), so only they can reach `handle_signal`. -/

def SIGINT : Nat := 2
def SIGTERM : Nat := 15
def SIGCONT : Nat := 18
def SIGTSTP : Nat := 20

/-- The `sig_map.get(signum, f"SIGNAL_{signum}")` classification inside
`handle_signal` (slm.py lines 175–181). -/
def sig_status (signum : Nat) : String :=
  if signum = SIGTSTP then "PAUSED"
  else if signum = SIGCONT then "RESUMED"
  else if signum = SIGTERM then "TERMINATING"
  else if signum = SIGINT then "TERMINATING"
  else "SIGNAL_" ++ toString signum

/-- `signal.Signals(signum).name` for the four signals a handler is
installed for.  (For any other number the Python expression would raise,
but no handler is registered for other numbers, so the branch is
unreachable; the catch-all keeps the model total.) -/
def sig_name (signum : Nat) : String :=
  if signum = SIGTSTP then "SIGTSTP"
  else if signum = SIGCONT then "SIGCONT"
  else if signum = SIGTERM then "SIGTERM"
  else if signum = SIGINT then "SIGINT"
  else "SIG" ++ toString signum

/-- `close_database()` as called from the supervisor: disconnects the
direct-store transport's connection (src/database.py lines 298–304). -/
def SDK.close_db (sdk : SDK) : SDK :=
  { sdk with db := sdk.db.map (fun d => { d with connected := false }) }

/-- Observable state of one `monitor_run` invocation:
* `sdk` — the recorder and its transport state;
* `last` — `signal_received["signal"]`, the most recently *dispatched*
  class (`none` initially);
* `trans` — the statuses (with their keyword arguments) passed to
  `_update_job_status`, in call order;
* `events` — the statuses passed to `log_status`, in call order;
* `exited` — `some code` once the process has exited (via `sys.exit` or an
  uncaught exception, which terminates the interpreter with code 1). -/
structure MonState where
  sdk : SDK
  last : Option String
  trans : List (String × Kwargs)
  events : List String
  exited : Option Int

/-- `handle_signal` (slm.py lines 174–194).  A signal delivered after the
process exited is never received; otherwise the status class is computed,
and dispatch (one `_update_job_status` call plus one `log_status` call) is
suppressed when it equals the last dispatched class.  A dispatched
`TERMINATING` closes the database connection (when the direct transport is
active) and exits the process with code 143. -/
def handle_signal (s : MonState) (signum : Nat) (now : String) : MonState :=
  match s.exited with
  | some _ => s
  | none =>
    let status := sig_status signum
    if s.last = some status then s
    else
      -- dispatch: the transition's boolean result is discarded by the handler
      let sdk3 := ((s.sdk.update_status status now []).1).log_status status
        ("Received signal: " ++ sig_name signum) now
      if status = "TERMINATING" then
        { sdk := sdk3.close_db, last := some status,
          trans := s.trans ++ [(status, ([] : Kwargs))],
          events := s.events ++ [status], exited := some 143 }
      else
        { sdk := sdk3, last := some status,
          trans := s.trans ++ [(status, ([] : Kwargs))],
          events := s.events ++ [status], exited := none }

/-- The signals delivered (in order) while the supervisor waits on the
child, each processed by `handle_signal`. -/
def signals_phase (s : MonState) (sigs : List Nat) (now : String) : MonState :=
  sigs.foldl (fun st sg => handle_signal st sg now) s

/-- The keyword arguments of the `RUNNING` transition(s) in the Slurm
branch of `monitor_run` (slm.py lines 141–147 and 154–160): the command and
the freshly re-read resource fields. -/
def running_kws (env : String → Option String) (cmd_str mem : String) : Kwargs :=
  [("command", some (Val.s cmd_str)),
   ("nodes", some (Val.s (getenvD env "SLURM_JOB_NODELIST" "N/A"))),
   ("cpus", some (Val.s (job_cpus_of env))),
   ("gpus", some (Val.s (getenvD env "SLURM_JOB_GRES" "N/A"))),
   ("memory", some (Val.s mem)),
   ("partition_name", some (Val.s (getenvD env "SLURM_JOB_PARTITION" "N/A")))]

/-- Scenario 3 of `monitor_run` (local test mode, slm.py lines 162–167)
plus the shared `log_status("RUNNING", ...)` call: job_id `"raw-" ++ uuid`,
one registration tagged `local_test`, one `RUNNING` update carrying only
`command`, one `RUNNING` lifecycle event. -/
def init_local (sdk0 : SDK) (cmd_str uuid now : String) : MonState :=
  { sdk := (((({ sdk0 with job_id := "raw-" ++ uuid }).register none (some cmd_str)
        (some "local_test")).update_status "RUNNING" now
        [("command", some (Val.s cmd_str))]).1).log_status "RUNNING"
        ("Command: " ++ cmd_str) now,
    last := none, trans := [("RUNNING", [("command", some (Val.s cmd_str))])],
    events := ["RUNNING"], exited := none }

/-- Scenarios 1 and 2 of `monitor_run` (Slurm environment, slm.py lines
121–161) plus the shared `log_status("RUNNING", ...)` call: job_id
`"slurm-" ++ sid`, resource fields re-read from the environment (the memory
resolution may raise, killing the run with interpreter exit code 1 before
any transition); first a `RUNNING` update with the resource kwargs, and only
if it reports `False` a registration tagged `direct_sbatch` followed by a
second identical `RUNNING` update. -/
def init_slurm (sdk0 : SDK) (env : String → Option String)
    (cmd_str now sid : String) : MonState :=
  match resolve_job_mem env (job_cpus_of env) with
  | Except.error _ =>
    { sdk := { sdk0 with
                 job_id := "slurm-" ++ sid,
                 job_nodes := getenvD env "SLURM_JOB_NODELIST" "N/A",
                 job_cpus := job_cpus_of env,
                 job_gpus := getenvD env "SLURM_JOB_GRES" "N/A" },
      last := none, trans := [], events := [], exited := some 1 }
  | Except.ok mem =>
    match ({ sdk0 with
               job_id := "slurm-" ++ sid,
               job_nodes := getenvD env "SLURM_JOB_NODELIST" "N/A",
               job_cpus := job_cpus_of env,
               job_gpus := getenvD env "SLURM_JOB_GRES" "N/A",
               job_mem := mem,
               job_partition := getenvD env "SLURM_JOB_PARTITION" "N/A" }).update_status
        "RUNNING" now (running_kws env cmd_str mem) with
    | (sdk2, updated) =>
      if updated then
        { sdk := sdk2.log_status "RUNNING" ("Command: " ++ cmd_str) now,
          last := none, trans := [("RUNNING", running_kws env cmd_str mem)],
          events := ["RUNNING"], exited := none }
      else
        { sdk := (((sdk2.register none (some cmd_str)
              (some "direct_sbatch")).update_status "RUNNING" now
              (running_kws env cmd_str mem)).1).log_status "RUNNING"
              ("Command: " ++ cmd_str) now,
          last := none,
          trans := [("RUNNING", running_kws env cmd_str mem),
                    ("RUNNING", running_kws env cmd_str mem)],
          events := ["RUNNING"], exited := none }

/-- The identity-resolution and registration/first-transition prefix of
`monitor_run` (slm.py lines 118–169), up to and including
`self.log_status("RUNNING", ...)`: the Slurm branch when `SLURM_JOB_ID` is
truthy, the local branch otherwise. -/
def init_phase (sdk0 : SDK) (env : String → Option String)
    (cmd_str uuid now : String) : MonState :=
  match env "SLURM_JOB_ID" with
  | some sid =>
    if sid ≠ "" then init_slurm sdk0 env cmd_str now sid
    else init_local sdk0 cmd_str uuid now
  | none => init_local sdk0 cmd_str uuid now

/-- The terminal block of `monitor_run` (slm.py lines 202–234), reached only
if no `TERMINATING` signal already exited the process.  `child` is the
outcome of `subprocess.Popen(cmd_args)` + `process.wait()`:
`Except.ok code` for a child that ran to completion, `Except.error` for an
execution error raised while launching/waiting (the `except` branch). -/
def final_phase (s : MonState) (child : Except String Int) (now : String) : MonState :=
  match s.exited with
  | some _ => s
  | none =>
    match child with
    | Except.ok exit_code =>
      let final_status := if exit_code = 0 then "COMPLETED" else "FAILED"
      let details := if exit_code = 0 then "Job completed successfully"
                     else "Exit code: " ++ toString exit_code
      { s with
        sdk := (((s.sdk.update_status final_status now
            [("exit_code", some (Val.i exit_code))]).1).log_status final_status
            details now).close_db,
        trans := s.trans ++ [(final_status, [("exit_code", some (Val.i exit_code))])],
        events := s.events ++ [final_status],
        exited := some exit_code }
    | Except.error msg =>
      { s with
        sdk := (((s.sdk.update_status "FAILED" now []).1).log_status "FAILED"
            ("Execution error: " ++ msg) now).close_db,
        trans := s.trans ++ [("FAILED", ([] : Kwargs))],
        events := s.events ++ ["FAILED"],
        exited := some 1 }

/-- The inputs of one `monitor_run` invocation that the environment
controls: the process environment, the command words, the signals delivered
while waiting on the child, the child's outcome, the generated `uuid4()`
string, and the wall clock. -/
structure RunInput where
  env : String → Option String
  cmd : List String
  signals : List Nat
  child : Except String Int
  uuid : String
  now : String

/-- `SlmSDK.monitor_run` (slm.py lines 109–234): the empty-command guard,
then identity resolution and initial transitions, then the signal handlers
over the delivered signals, then the child's terminal transition. -/
def monitor_run (sdk0 : SDK) (inp : RunInput) : MonState :=
  if inp.cmd.isEmpty then
    { sdk := sdk0, last := none, trans := [], events := [], exited := some 1 }
  else
    let s1 := init_phase sdk0 inp.env (" ".intercalate inp.cmd) inp.uuid inp.now
    let s2 := signals_phase s1 inp.signals inp.now
    final_phase s2 inp.child inp.now

/-! ## The `submit` branch of `main` (slm.py lines 304–344) -/

/-- Leftmost match of `re.search(r'Submitted batch job (\d+)', stdout)` over
the character list: at each position, if the literal prefix
`"Submitted batch job "` is present and at least one ASCII digit follows,
the captured group is the maximal digit run; otherwise the scan advances one
character.  (Python's `\d` also accepts non-ASCII decimal digits; `sbatch`
output is ASCII.) -/
def findSubmitted : List Char → Option (List Char)
  | [] => none
  | c :: rest =>
    let here := c :: rest
    if "Submitted batch job ".toList.isPrefixOf here then
      let digits := (here.drop "Submitted batch job ".length).takeWhile Char.isDigit
      if digits.isEmpty then findSubmitted rest else some digits
    else findSubmitted rest

/-- The captured integer of the sbatch-output scan, as a string
(`match.group(1)` in slm.py line 332), or `none` when the pattern does not
occur (`if not match` in line 328). -/
def parse_sbatch_job_id (stdout : String) : Option String :=
  (findSubmitted stdout.data).map List.asString

/-- Outcome of the `submit` branch: the process exit code, the `job_id`s of
the `sdk.register_job` calls made (with the script path each carried), and
the `(job_id, status)` pairs of the `sdk._update_job_status` calls made. -/
structure SubmitResult where
  exit : Int
  registered : List (String × Option String)
  trans : List (String × String)

/-- The `submit` branch of `main` (slm.py lines 304–344): missing script →
exit 1; nonzero `sbatch` return code → exit with that code; unparsable
`sbatch` stdout → exit 1; otherwise the captured integer is suffixed to
`"slurm-"`, the SDK's `job_id` is pointed at it, and one registration
(tagged `slm_submit`) plus one `SUBMITTED` transition and event follow,
then exit 0. -/
def submit_main (sdk : SDK) (script_exists : Bool) (script_path : String)
    (sbatch_rc : Int) (sbatch_stdout now : String) : SubmitResult × SDK :=
  if !script_exists then ({ exit := 1, registered := [], trans := [] }, sdk)
  else if sbatch_rc ≠ 0 then ({ exit := sbatch_rc, registered := [], trans := [] }, sdk)
  else
    match parse_sbatch_job_id sbatch_stdout with
    | none => ({ exit := 1, registered := [], trans := [] }, sdk)
    | some real_job_id =>
      let db_job_id := "slurm-" ++ real_job_id
      let sdk2 := { sdk with job_id := db_job_id }
      let sdk3 := sdk2.register (some script_path) none (some "slm_submit")
      let (sdk4, _) := sdk3.update_status "SUBMITTED" now
        [("script_path", some (Val.s script_path))]
      let sdk5 := sdk4.log_status "SUBMITTED"
        ("Script: " ++ script_path ++ ", Job ID: " ++ real_job_id) now
      ({ exit := 0, registered := [(db_job_id, some script_path)],
         trans := [(db_job_id, "SUBMITTED")] }, sdk5)

end SlurmAdmin

deriving instance DecidableEq for Except

namespace SlurmAdmin

/-! ## Helper lemmas -/

/-- Mapping a keyed conditional update over rows none of which match the key
leaves the list unchanged. -/
theorem map_if_no_match {l : List Row} {job_id : String} (f : Row → Row)
    (h : ∀ r ∈ l, r.job_id ≠ job_id) :
    l.map (fun r => if r.job_id = job_id then f r else r) = l := by
  induction l with
  | nil => rfl
  | cons a t ih =>
    simp only [List.map_cons]
    rw [if_neg (h a (List.mem_cons_self a t)), ih fun r hr => h r (List.mem_cons_of_mem a hr)]

/-- A string with a successful `pyInt?` parse is not empty. -/
theorem pyInt?_ne_empty {s : String} {m : Int} (h : pyInt? s = some m) : s ≠ "" := by
  rintro rfl
  rw [show pyInt? "" = none by decide] at h
  exact Option.noConfusion h

/-- A string with a successful `pyInt?` parse is not the `"N/A"` sentinel. -/
theorem pyInt?_ne_na {s : String} {m : Int} (h : pyInt? s = some m) : s ≠ "N/A" := by
  rintro rfl
  rw [show pyInt? "N/A" = none by decide] at h
  exact Option.noConfusion h

/-! ## C1 — transition return value vs. record existence -/

/-- **C1.** The claim says `update_status` "returns whether a matching
record was found and updated".  In the code the `UPDATE ... WHERE job_id`
statement raises no error when zero rows match and the affected-row count is
never consulted, so with an enabled, connected store the operation returns
`True` even when no record with that `job_id` exists — and then leaves every
row untouched, so the caller's "record found" branch is taken although
nothing was updated.  This contradicts the scenario-detection logic built on
top of it (`monitor_run`'s `if not updated` branch and the api_service 404
"Job not found" branch are unreachable), so the code, not the claim, is at
fault. -/
theorem c1_update_status_true_without_record
    (db : SlurmDatabase) (job_id status now : String) (kws : Kwargs)
    (hen : db.enabled = true) (hconn : db.connected = true)
    (hmiss : ∀ r ∈ db.rows, r.job_id ≠ job_id) :
    (update_job_status db job_id status now kws).2 = true
      ∧ (update_job_status db job_id status now kws).1.rows = db.rows := by
  unfold update_job_status
  rw [hen, hconn]
  simp only [Bool.and_self, if_true]
  exact ⟨trivial, map_if_no_match _ hmiss⟩

/-- Witness for C1: the concrete failing input — an empty job table and the
first `RUNNING` transition of job `slurm-12345` — on which the transition
reports success. -/
theorem c1_update_status_true_without_record_witness :
    (update_job_status ⟨true, true, [], []⟩ "slurm-12345" "RUNNING" "t0" []).2 = true := by
  exact (c1_update_status_true_without_record ⟨true, true, [], []⟩ "slurm-12345" "RUNNING"
    "t0" [] rfl rfl (by simp)).1

/-! ## C6 — operations without an active Transport -/

/-- **C6.** With neither transport initialised (`self.db is None` and
`self.http is None`), every recorder operation is a no-op that returns its
failure value — `_update_job_status` returns `False` and leaves the SDK
untouched, `_log_event`/`log_status` (whose Python value is always `None`)
write nothing, and `register_job` writes nothing — and none of them can
raise, every operation being a total function of the state. -/
theorem c6_no_transport_noop (sdk : SDK)
    (status now details event_type script command src : String)
    (kws : Kwargs) (md : Option String)
    (hdb : sdk.db = none) (hhttp : sdk.httpRemote = none) :
    sdk.update_status status now kws = (sdk, false)
      ∧ sdk.log_ev event_type status details md = sdk
      ∧ sdk.log_status status details now = sdk
      ∧ sdk.register (some script) (some command) (some src) = sdk := by
  unfold SDK.update_status SDK.log_ev SDK.log_status SDK.register
  rw [hdb, hhttp]
  exact ⟨rfl, rfl, by unfold SDK.log_ev; rw [hdb, hhttp], rfl⟩

/-- Witness for C6 at a concrete transportless SDK. -/
theorem c6_no_transport_noop_witness :
    (SDK.mk "N/A" "LocalTask" "N/A" "N/A" "N/A" "N/A" "N/A" none none).update_status
        "RUNNING" "t0" [] =
      (SDK.mk "N/A" "LocalTask" "N/A" "N/A" "N/A" "N/A" "N/A" none none, false) := by
  exact (c6_no_transport_noop (SDK.mk "N/A" "LocalTask" "N/A" "N/A" "N/A" "N/A" "N/A" none none)
    "RUNNING" "t0" "" "lifecycle" "s" "c" "local_test" [] none rfl rfl).1

/-! ## C3 — total exit-code mapping -/

/-- **C3.** When the supervisor's wait on the child completes with exit code
`c`, the final dispatched transition is `COMPLETED` for `c = 0` and `FAILED`
for `c ≠ 0`, in both cases carrying `exit_code = c` as a field update and
logging the matching lifecycle event, and the supervisor process then exits
with the child's own exit code. -/
theorem c3_exit_code_mapping (s : MonState) (code : Int) (now : String)
    (halive : s.exited = none) :
    (final_phase s (Except.ok code) now).exited = some code
      ∧ (code = 0 →
          (final_phase s (Except.ok code) now).trans
              = s.trans ++ [("COMPLETED", [("exit_code", some (Val.i code))])]
            ∧ (final_phase s (Except.ok code) now).events = s.events ++ ["COMPLETED"])
      ∧ (code ≠ 0 →
          (final_phase s (Except.ok code) now).trans
              = s.trans ++ [("FAILED", [("exit_code", some (Val.i code))])]
            ∧ (final_phase s (Except.ok code) now).events = s.events ++ ["FAILED"]) := by
  unfold final_phase
  rw [halive]
  by_cases h0 : code = 0
  · simp [h0]
  · simp [h0]

/-- Witness for C3: a child exiting 0 maps to `COMPLETED`/exit 0 and a
child exiting 7 maps to `FAILED`/exit 7, from the initial state of a
transportless run. -/
theorem c3_exit_code_mapping_witness :
    (final_phase
        ⟨SDK.mk "N/A" "LocalTask" "N/A" "N/A" "N/A" "N/A" "N/A" none none,
         none, [], [], none⟩ (Except.ok 0) "t0").trans
        = [("COMPLETED", [("exit_code", some (Val.i 0))])]
      ∧ (final_phase
          ⟨SDK.mk "N/A" "LocalTask" "N/A" "N/A" "N/A" "N/A" "N/A" none none,
           none, [], [], none⟩ (Except.ok 7) "t0").exited = some 7 := by
  refine ⟨?_, ?_⟩
  · exact ((c3_exit_code_mapping _ 0 "t0" rfl).2.1 rfl).1
  · exact (c3_exit_code_mapping _ 7 "t0" rfl).1

/-! ## C4 — forced-termination path -/

/-- **C4.** On the first receipt of a terminate (`SIGTERM`) or interrupt
(`SIGINT`) signal in a live supervisor — i.e. while `TERMINATING` is not the
last dispatched class — the handler dispatches exactly one `TERMINATING`
transition, logs exactly one `TERMINATING` lifecycle event, closes the
direct-store connection when that transport is active, and exits the whole
process with the fixed code 143, regardless of which of the two signals
arrived and independently of the child's state (the child is not consulted
anywhere on this path). -/
theorem c4_terminating_path (s : MonState) (signum : Nat) (now : String)
    (halive : s.exited = none)
    (hsig : signum = SIGTERM ∨ signum = SIGINT)
    (hlast : s.last ≠ some "TERMINATING") :
    (handle_signal s signum now).trans = s.trans ++ [("TERMINATING", ([] : Kwargs))]
      ∧ (handle_signal s signum now).events = s.events ++ ["TERMINATING"]
      ∧ (handle_signal s signum now).exited = some 143
      ∧ (∀ d, (handle_signal s signum now).sdk.db = some d → d.connected = false) := by
  have hst : sig_status signum = "TERMINATING" := by
    rcases hsig with rfl | rfl <;> decide
  unfold handle_signal
  rw [halive]
  simp only [hst]
  rw [if_neg hlast]
  simp only [if_true]
  refine ⟨trivial, trivial, trivial, ?_⟩
  intro d hd
  simp only [SDK.close_db, Option.map_eq_some'] at hd
  obtain ⟨d0, _, rfl⟩ := hd
  rfl

/-- Witness for C4: from the freshly started state of a run with an active
(enabled, connected, empty) direct store, a first `SIGTERM` exits with 143
after a single `TERMINATING` dispatch and closes the store. -/
theorem c4_terminating_path_witness :
    (handle_signal
        ⟨SDK.mk "raw-x" "LocalTask" "N/A" "N/A" "N/A" "N/A" "N/A"
           (some ⟨true, true, [], []⟩) none,
         some "RUNNING", [], [], none⟩ SIGTERM "t0").exited = some 143 := by
  exact (c4_terminating_path _ SIGTERM "t0" rfl (Or.inl rfl) (by simp)).2.2.1

/-! ## C2 — deduplication of same-class signal runs -/

/-- A signal whose class equals the last dispatched one, or a signal
delivered after the process exited, leaves the state unchanged. -/
theorem handle_signal_fixed (s : MonState) (signum : Nat) (now : String)
    (h : s.exited.isSome ∨ s.last = some (sig_status signum)) :
    handle_signal s signum now = s := by
  unfold handle_signal
  cases hx : s.exited with
  | some c => rfl
  | none =>
    rcases h with h | h
    · rw [hx] at h
      exact absurd h (by simp)
    · rw [if_pos h]

/-- A whole run of signals of one class is absorbed once that class is the
last dispatched one (or the process has exited). -/
theorem signals_phase_replicate_fixed (s : MonState) (signum k : Nat) (now : String)
    (h : s.exited.isSome ∨ s.last = some (sig_status signum)) :
    signals_phase s (List.replicate k signum) now = s := by
  induction k with
  | zero => rfl
  | succ k ih =>
    rw [List.replicate_succ]
    unfold signals_phase at *
    rw [List.foldl_cons, handle_signal_fixed s signum now h, ih]

/-- **C2.** For any run of `n ≥ 1` consecutive signals of one class arriving
in a live supervisor whose last dispatched class differs, exactly one status
transition and exactly one lifecycle event are dispatched for the whole run
— the first signal dispatches, every following same-class signal is
suppressed — and conversely a signal whose class equals the last dispatched
one dispatches nothing at all (no transition, no event, no state change). -/
theorem c2_signal_dedup (s : MonState) (signum n : Nat) (now : String)
    (halive : s.exited = none)
    (hdiff : s.last ≠ some (sig_status signum))
    (hn : 1 ≤ n) :
    ((signals_phase s (List.replicate n signum) now).trans
        = s.trans ++ [(sig_status signum, ([] : Kwargs))]
      ∧ (signals_phase s (List.replicate n signum) now).events
          = s.events ++ [sig_status signum])
    ∧ ∀ t : MonState, t.exited = none → t.last = some (sig_status signum) →
        handle_signal t signum now = t := by
  constructor
  · obtain ⟨k, rfl⟩ : ∃ k, n = k + 1 := ⟨n - 1, (Nat.succ_pred_eq_of_pos hn).symm⟩
    rw [List.replicate_succ]
    unfold signals_phase
    rw [List.foldl_cons]
    have hs1 : (handle_signal s signum now).trans
          = s.trans ++ [(sig_status signum, ([] : Kwargs))]
        ∧ (handle_signal s signum now).events = s.events ++ [sig_status signum]
        ∧ ((handle_signal s signum now).exited.isSome
            ∨ (handle_signal s signum now).last = some (sig_status signum)) := by
      unfold handle_signal
      rw [halive]
      simp only []
      rw [if_neg hdiff]
      by_cases hT : sig_status signum = "TERMINATING"
      · rw [if_pos hT]
        exact ⟨rfl, rfl, Or.inl rfl⟩
      · rw [if_neg hT]
        exact ⟨rfl, rfl, Or.inr rfl⟩
    have habs := signals_phase_replicate_fixed (handle_signal s signum now) signum k now
      hs1.2.2
    unfold signals_phase at habs
    rw [habs]
    exact ⟨hs1.1, hs1.2.1⟩
  · intro t ht hl
    exact handle_signal_fixed t signum now (Or.inr hl)

/-- Witness for C2: three consecutive `SIGTSTP`s from a transportless
initial state dispatch a single `PAUSED` transition and a single `PAUSED`
event. -/
theorem c2_signal_dedup_witness :
    (signals_phase
        ⟨SDK.mk "N/A" "LocalTask" "N/A" "N/A" "N/A" "N/A" "N/A" none none,
         some "RUNNING", [("RUNNING", ([] : Kwargs))], ["RUNNING"], none⟩
        (List.replicate 3 SIGTSTP) "t0").trans
      = [("RUNNING", ([] : Kwargs)), ("PAUSED", ([] : Kwargs))] := by
  exact (c2_signal_dedup _ SIGTSTP 3 "t0" rfl (by decide) (by decide)).1.1

/-! ## C5 — register never overwrites existing data with nulls -/

/-- A field all of whose supplied values are `None` is untouched by the
kwargs update (it never enters the `SET` list). -/
theorem applyNonNull_null_entries (kws : Kwargs) (f : String → Option Val)
    (field : String) (h : ∀ p ∈ kws, p.1 = field → p.2 = none) :
    applyNonNull f kws field = f field := by
  induction kws generalizing f with
  | nil => rfl
  | cons a t ih =>
    have ht : ∀ p ∈ t, p.1 = field → p.2 = none :=
      fun p hp => h p (List.mem_cons_of_mem a hp)
    cases ha : a.2 with
    | none =>
      show applyNonNull f (a :: t) field = f field
      unfold applyNonNull
      rw [List.foldl_cons, ha]
      exact ih f ht
    | some v =>
      have hne : a.1 ≠ field := by
        intro he
        rw [h a (List.mem_cons_self a t) he] at ha
        exact Option.noConfusion ha
      show applyNonNull f (a :: t) field = f field
      unfold applyNonNull
      rw [List.foldl_cons, ha]
      have := ih (setField f a.1 v) ht
      unfold applyNonNull at this
      rw [this]
      unfold setField
      rw [if_neg fun he => hne he.symm]

/-- A field supplied (at least once) and always with the same non-`None`
value ends up holding that value. -/
theorem applyNonNull_some_entries (field : String) (v : Val) :
    ∀ (kws : Kwargs) (f : String → Option Val),
      (∃ p ∈ kws, p.1 = field) → (∀ p ∈ kws, p.1 = field → p.2 = some v) →
      applyNonNull f kws field = some v := by
  intro kws
  induction kws with
  | nil =>
    intro f h1 _
    obtain ⟨p, hp, _⟩ := h1
    exact absurd hp (List.not_mem_nil p)
  | cons a t ih =>
    intro f h1 h2
    have ht2 : ∀ p ∈ t, p.1 = field → p.2 = some v :=
      fun p hp => h2 p (List.mem_cons_of_mem a hp)
    by_cases htf : ∃ p ∈ t, p.1 = field
    · cases ha : a.2 with
      | none =>
        show applyNonNull f (a :: t) field = some v
        unfold applyNonNull
        rw [List.foldl_cons, ha]
        exact ih f htf ht2
      | some w =>
        show applyNonNull f (a :: t) field = some v
        unfold applyNonNull
        rw [List.foldl_cons, ha]
        exact ih (setField f a.1 w) htf ht2
    · have haf : a.1 = field := by
        obtain ⟨p, hp, hpf⟩ := h1
        rcases List.mem_cons.mp hp with rfl | hpt
        · exact hpf
        · exact absurd ⟨p, hpt, hpf⟩ htf
      have hav : a.2 = some v := h2 a (List.mem_cons_self a t) haf
      show applyNonNull f (a :: t) field = some v
      unfold applyNonNull
      rw [List.foldl_cons, hav]
      have hnone : ∀ p ∈ t, p.1 = field → p.2 = none := by
        intro p hp hpf
        exact absurd ⟨p, hp, hpf⟩ htf
      have := applyNonNull_null_entries t (setField f a.1 v) field hnone
      unfold applyNonNull at this
      rw [this]
      unfold setField
      rw [haf, if_pos rfl]

/-- **C5.** A `register` call targeting a `job_id` whose record already
exists omits every `None`-valued field from the update: a column all of
whose supplied values are `None` keeps its stored value in every row (in
particular an existing non-null field is never overwritten with null), and a
column supplied with a non-`None` value `v` is written as `v` exactly in the
rows of that `job_id`. -/
theorem c5_register_preserves_nonnull
    (db : SlurmDatabase) (job_id job_name : String) (kws : Kwargs) (field : String)
    (hen : db.enabled = true) (hconn : db.connected = true)
    (hex : db.rows.any (fun r => r.job_id = job_id) = true) :
    ((∀ p ∈ kws, p.1 = field → p.2 = none) →
        (register_job db job_id job_name kws).rows.map (fun r => r.fields field)
          = db.rows.map (fun r => r.fields field))
      ∧ ∀ v : Val, (∃ p ∈ kws, p.1 = field) → (∀ p ∈ kws, p.1 = field → p.2 = some v) →
          (register_job db job_id job_name kws).rows.map (fun r => r.fields field)
            = db.rows.map (fun r => if r.job_id = job_id then some v else r.fields field) := by
  unfold register_job
  rw [hen, hconn]
  simp only [Bool.and_self, if_true, hex, List.map_map]
  constructor
  · intro hnull
    refine List.map_congr_left fun r _ => ?_
    by_cases hr : r.job_id = job_id
    · simp only [Function.comp, if_pos hr]
      exact applyNonNull_null_entries kws r.fields field hnull
    · simp only [Function.comp, if_neg hr]
  · intro v h1 h2
    refine List.map_congr_left fun r _ => ?_
    by_cases hr : r.job_id = job_id
    · simp only [Function.comp, if_pos hr]
      exact applyNonNull_some_entries field v kws r.fields h1 h2
    · simp only [Function.comp, if_neg hr]

/-- Witness for C5: a stored record for `slurm-1` whose `command` is
non-null survives a later register call supplying `command = None` (and a
non-null `script_path`) with its `command` intact. -/
theorem c5_register_preserves_nonnull_witness :
    (register_job
        ⟨true, true,
         [⟨"slurm-1", "job", fun k => if k = "command" then some (Val.s "c0") else none⟩],
         []⟩
        "slurm-1" "job" [("command", none), ("script_path", some (Val.s "/a.sh"))]).rows.map
        (fun r => r.fields "command")
      = [some (Val.s "c0")] := by
  exact (c5_register_preserves_nonnull
    ⟨true, true,
     [⟨"slurm-1", "job", fun k => if k = "command" then some (Val.s "c0") else none⟩], []⟩
    "slurm-1" "job" [("command", none), ("script_path", some (Val.s "/a.sh"))] "command"
    rfl rfl (by decide)).1 (by decide)

/-! ## C7 — per-CPU memory fallback -/

/-- **C7.** With no per-node memory variable, a per-CPU memory value `M`
(parsing to the integer `m`) and a CPU count `C` (parsing to `c`), the
resolved memory field is the product `m * c` rendered as a total with the
`"MB"` unit suffix. -/
theorem c7_mem_per_cpu_fallback (env : String → Option String) (M C : String) (m c : Int)
    (hnode : env "SLURM_MEM_PER_NODE" = none)
    (hcpuMem : env "SLURM_MEM_PER_CPU" = some M)
    (hm : pyInt? M = some m)
    (hcpus : env "SLURM_CPUS_PER_TASK" = some C)
    (hc : pyInt? C = some c) :
    resolve_job_mem env (job_cpus_of env) = Except.ok (toString (m * c) ++ "MB") := by
  have hMne : M ≠ "" := pyInt?_ne_empty hm
  have hMna : M ≠ "N/A" := pyInt?_ne_na hm
  have hCna : C ≠ "N/A" := pyInt?_ne_na hc
  have hjc : job_cpus_of env = C := by
    unfold job_cpus_of getenvD
    rw [hcpus]
    rfl
  unfold resolve_job_mem
  simp only [getenvD, pyOr, pyTruthy]
  rw [hnode, hcpuMem, hjc]
  simp [bne_iff_ne, hMna, hMne, hCna, hc, hm]

/-- Witness for C7: `SLURM_MEM_PER_CPU = 512`, `SLURM_CPUS_PER_TASK = 4`,
no `SLURM_MEM_PER_NODE` ⇒ resolved memory `"2048MB"`. -/
theorem c7_mem_per_cpu_fallback_witness :
    resolve_job_mem
        (fun k => if k = "SLURM_MEM_PER_CPU" then some "512"
                  else if k = "SLURM_CPUS_PER_TASK" then some "4" else none)
        (job_cpus_of (fun k => if k = "SLURM_MEM_PER_CPU" then some "512"
                  else if k = "SLURM_CPUS_PER_TASK" then some "4" else none))
      = Except.ok "2048MB" := by
  exact c7_mem_per_cpu_fallback _ "512" "4" 512 4 rfl rfl (by decide) rfl (by decide)

/-! ## C10 — per-node memory multiplied by the CPU count -/

/-- The counterexample environment for C10: both memory variables set and a
present but non-integer CPU count. -/
def c10_env : String → Option String := fun k =>
  if k = "SLURM_MEM_PER_NODE" then some "1000"
  else if k = "SLURM_MEM_PER_CPU" then some "4"
  else if k = "SLURM_CPUS_PER_TASK" then some "abc"
  else none

/-- **C10 (counterexample).** The claim says the CPU count defaults to 1
when the CPU variable is "absent or unparsable", which at
`SLURM_MEM_PER_NODE = 1000`, `SLURM_MEM_PER_CPU = 4`,
`SLURM_CPUS_PER_TASK = "abc"` would resolve the memory to `"1000MB"`; the
code instead evaluates `int(self.job_cpus)` outside the `try` block, so the
resolution raises an uncaught `ValueError` and produces no value at all. -/
theorem c10_cpu_unparsable_counterexample :
    resolve_job_mem c10_env (job_cpus_of c10_env) = Except.error "ValueError"
      ∧ resolve_job_mem c10_env (job_cpus_of c10_env) ≠ Except.ok "1000MB" := by
  constructor
  · decide
  · decide

/-- **C10 (amended).** With both the per-node and per-CPU memory variables
set (non-empty, per-node value not the `"N/A"` sentinel), the resolver does
not use the per-node value as-is but multiplies it by the CPU count and
formats the product with an `"MB"` suffix; the CPU count defaults to 1 only
when the CPU variables are absent, while a present but non-integer CPU
value raises an uncaught `ValueError`; and the multiplication is skipped,
leaving the raw per-node value, only when that value does not parse as an
integer. -/
theorem c10_per_node_times_cpus_amended (env : String → Option String) (P Q : String)
    (hnode : env "SLURM_MEM_PER_NODE" = some P)
    (hPne : P ≠ "") (hPna : P ≠ "N/A")
    (hq : env "SLURM_MEM_PER_CPU" = some Q) (hQne : Q ≠ "") :
    (∀ (p c : Int) (C : String), pyInt? P = some p → env "SLURM_CPUS_PER_TASK" = some C →
        pyInt? C = some c →
        resolve_job_mem env (job_cpus_of env) = Except.ok (toString (p * c) ++ "MB"))
      ∧ (∀ p : Int, pyInt? P = some p → env "SLURM_CPUS_PER_TASK" = none →
          env "SLURM_CPUS_ON_NODE" = none →
          resolve_job_mem env (job_cpus_of env) = Except.ok (toString p ++ "MB"))
      ∧ (∀ (c : Int) (C : String), pyInt? P = none → env "SLURM_CPUS_PER_TASK" = some C →
          pyInt? C = some c →
          resolve_job_mem env (job_cpus_of env) = Except.ok P)
      ∧ (∀ C : String, env "SLURM_CPUS_PER_TASK" = some C → C ≠ "N/A" → pyInt? C = none →
          resolve_job_mem env (job_cpus_of env) = Except.error "ValueError") := by
  refine ⟨?_, ?_, ?_, ?_⟩
  · intro p c C hp hcpus hc
    have hCna : C ≠ "N/A" := pyInt?_ne_na hc
    have hjc : job_cpus_of env = C := by
      unfold job_cpus_of getenvD
      rw [hcpus]
      rfl
    unfold resolve_job_mem
    simp only [getenvD, pyOr, pyTruthy]
    rw [hnode, hq, hjc]
    simp [bne_iff_ne, hPna, hPne, hQne, hCna, hp, hc]
  · intro p hp hc1 hc2
    have hjc : job_cpus_of env = "N/A" := by
      unfold job_cpus_of getenvD
      rw [hc1, hc2]
      rfl
    unfold resolve_job_mem
    simp only [getenvD, pyOr, pyTruthy]
    rw [hnode, hq, hjc]
    simp [bne_iff_ne, hPna, hPne, hQne, hp]
  · intro c C hp hcpus hc
    have hCna : C ≠ "N/A" := pyInt?_ne_na hc
    have hjc : job_cpus_of env = C := by
      unfold job_cpus_of getenvD
      rw [hcpus]
      rfl
    unfold resolve_job_mem
    simp only [getenvD, pyOr, pyTruthy]
    rw [hnode, hq, hjc]
    simp [bne_iff_ne, hPna, hPne, hQne, hCna, hp, hc]
  · intro C hcpus hCna hc
    have hjc : job_cpus_of env = C := by
      unfold job_cpus_of getenvD
      rw [hcpus]
      rfl
    unfold resolve_job_mem
    simp only [getenvD, pyOr, pyTruthy]
    rw [hnode, hq, hjc]
    simp [bne_iff_ne, hPna, hPne, hQne, hCna, hc]

/-- Witness for C10 (amended): `SLURM_MEM_PER_NODE = 1000`,
`SLURM_MEM_PER_CPU = 4`, `SLURM_CPUS_PER_TASK = 2` ⇒ the per-node value is
multiplied by the CPU count, yielding `"2000MB"`. -/
theorem c10_per_node_times_cpus_amended_witness :
    resolve_job_mem
        (fun k => if k = "SLURM_MEM_PER_NODE" then some "1000"
                  else if k = "SLURM_MEM_PER_CPU" then some "4"
                  else if k = "SLURM_CPUS_PER_TASK" then some "2" else none)
        (job_cpus_of (fun k => if k = "SLURM_MEM_PER_NODE" then some "1000"
                  else if k = "SLURM_MEM_PER_CPU" then some "4"
                  else if k = "SLURM_CPUS_PER_TASK" then some "2" else none))
      = Except.ok "2000MB" := by
  exact (c10_per_node_times_cpus_amended _ "1000" "4" rfl (by decide) (by decide) rfl
    (by decide)).1 1000 2 "2" (by decide) rfl (by decide)

/-! ## C8 — sbatch output parsing in the submit path -/

/-- **C8.** In the submit path (script present, `sbatch` returned 0): if the
enqueue command's standard output contains `"Submitted batch job <integer>"`
the captured integer `d` becomes the numeric suffix of the job id — exactly
one registration call for `"slurm-" ++ d` (carrying the script path) and one
`SUBMITTED` transition for that id are made and the process exits 0 — while
an output without that phrase exits with code 1 and makes no registration
call. -/
theorem c8_sbatch_output_parsing (sdk : SDK) (script_path out now : String) :
    (∀ d, parse_sbatch_job_id out = some d →
        (submit_main sdk true script_path 0 out now).1.exit = 0
          ∧ (submit_main sdk true script_path 0 out now).1.registered
              = [("slurm-" ++ d, some script_path)]
          ∧ (submit_main sdk true script_path 0 out now).1.trans
              = [("slurm-" ++ d, "SUBMITTED")])
      ∧ (parse_sbatch_job_id out = none →
          (submit_main sdk true script_path 0 out now).1.exit = 1
            ∧ (submit_main sdk true script_path 0 out now).1.registered = []) := by
  constructor
  · intro d hd
    unfold submit_main
    simp [hd]
  · intro hd
    unfold submit_main
    simp [hd]

/-- Witness for C8: the output `"Submitted batch job 98765\n"` yields job id
`slurm-98765` and a single registration for it, while the output
`"submission failed\n"` exits 1 with no registration. -/
theorem c8_sbatch_output_parsing_witness :
    (submit_main (SDK.mk "N/A" "LocalTask" "N/A" "N/A" "N/A" "N/A" "N/A" none none)
        true "/a.sh" 0 "Submitted batch job 98765\n" "t0").1.registered
        = [("slurm-98765", some "/a.sh")]
      ∧ (submit_main (SDK.mk "N/A" "LocalTask" "N/A" "N/A" "N/A" "N/A" "N/A" none none)
          true "/a.sh" 0 "submission failed\n" "t0").1.exit = 1 := by
  constructor
  · exact ((c8_sbatch_output_parsing _ "/a.sh" "Submitted batch job 98765\n" "t0").1
      "98765" (by decide)).2.1
  · exact ((c8_sbatch_output_parsing _ "/a.sh" "submission failed\n" "t0").2 (by decide)).1

/-! ## C9 — no transition ever follows a terminal status -/

/-- The catch-all `"SIGNAL_<n>"` class is never a terminal status name. -/
theorem signal_prefix_ne (t : String) :
    "SIGNAL_" ++ t ≠ "COMPLETED" ∧ "SIGNAL_" ++ t ≠ "FAILED" := by
  constructor <;> intro h <;>
    · have h2 : ("SIGNAL_" ++ t).data = _ := congrArg String.data h
      rw [String.data_append] at h2
      simp at h2

/-- No signal class is a terminal status name. -/
theorem sig_status_ne_terminal (n : Nat) :
    sig_status n ≠ "COMPLETED" ∧ sig_status n ≠ "FAILED" := by
  unfold sig_status
  split_ifs
  · exact ⟨by decide, by decide⟩
  · exact ⟨by decide, by decide⟩
  · exact ⟨by decide, by decide⟩
  · exact ⟨by decide, by decide⟩
  · exact signal_prefix_ne (toString n)

/-- Every transition dispatched by the local-mode initial phase is
`RUNNING`. -/
theorem init_local_trans_running (sdk0 : SDK) (cmd_str uuid now : String) :
    ∀ x ∈ (init_local sdk0 cmd_str uuid now).trans, x.1 = "RUNNING" := by
  intro x hx
  unfold init_local at hx
  simp at hx
  subst hx
  rfl

/-- Every transition dispatched by the Slurm-mode initial phase is
`RUNNING`. -/
theorem init_slurm_trans_running (sdk0 : SDK) (env : String → Option String)
    (cmd_str now sid : String) :
    ∀ x ∈ (init_slurm sdk0 env cmd_str now sid).trans, x.1 = "RUNNING" := by
  intro x hx
  unfold init_slurm at hx
  split at hx
  · simp at hx
  · split at hx
    split at hx
    · simp at hx
      subst hx
      rfl
    · simp at hx
      subst hx
      rfl

/-- Every transition dispatched by the initial phase is `RUNNING`. -/
theorem init_phase_trans_running (sdk0 : SDK) (env : String → Option String)
    (cmd_str uuid now : String) :
    ∀ x ∈ (init_phase sdk0 env cmd_str uuid now).trans, x.1 = "RUNNING" := by
  intro x hx
  unfold init_phase at hx
  split at hx
  · split at hx
    · exact init_slurm_trans_running _ _ _ _ _ x hx
    · exact init_local_trans_running _ _ _ _ x hx
  · exact init_local_trans_running _ _ _ _ x hx

/-- One handler invocation either dispatches nothing or appends exactly the
received signal's class. -/
theorem handle_signal_trans_shape (s : MonState) (signum : Nat) (now : String) :
    (handle_signal s signum now).trans = s.trans
      ∨ (handle_signal s signum now).trans
          = s.trans ++ [(sig_status signum, ([] : Kwargs))] := by
  unfold handle_signal
  split
  · exact Or.inl rfl
  · dsimp only []
    split
    · exact Or.inl rfl
    · split
      · exact Or.inr rfl
      · exact Or.inr rfl

/-- Every transition present after the signal phase was either already
there or is some signal's class. -/
theorem signals_phase_trans_mem (sigs : List Nat) (now : String) :
    ∀ (s : MonState) (x : String × Kwargs),
      x ∈ (signals_phase s sigs now).trans →
      x ∈ s.trans ∨ ∃ n, x.1 = sig_status n := by
  induction sigs with
  | nil => exact fun s x hx => Or.inl hx
  | cons a t ih =>
    intro s x hx
    unfold signals_phase at hx
    rw [List.foldl_cons] at hx
    rcases ih (handle_signal s a now) x hx with h | h
    · rcases handle_signal_trans_shape s a now with he | he
      · rw [he] at h
        exact Or.inl h
      · rw [he] at h
        rcases List.mem_append.mp h with h | h
        · exact Or.inl h
        · refine Or.inr ⟨a, ?_⟩
          rw [List.mem_singleton.mp h]
    · exact Or.inr h

/-- The terminal phase appends at most one transition. -/
theorem final_phase_trans_shape (s : MonState) (child : Except String Int) (now : String) :
    (final_phase s child now).trans = s.trans
      ∨ ∃ f kw, (final_phase s child now).trans = s.trans ++ [(f, kw)] := by
  unfold final_phase
  split
  · exact Or.inl rfl
  · split
    · exact Or.inr ⟨_, _, rfl⟩
    · exact Or.inr ⟨_, _, rfl⟩

/-- **C9.** In every `monitor_run` invocation — any environment, command,
signal sequence and child outcome — the terminal statuses `COMPLETED` and
`FAILED` can occur only as the very last dispatched transition: no
transition is ever dispatched after the record reaches a terminal status,
so the supervisor never regresses a job from a terminal status back to an
active one within one invocation. -/
theorem c9_no_transition_after_terminal (sdk0 : SDK) (inp : RunInput) :
    ∀ x ∈ (monitor_run sdk0 inp).trans.dropLast,
      x.1 ≠ "COMPLETED" ∧ x.1 ≠ "FAILED" := by
  intro x hx
  unfold monitor_run at hx
  by_cases hc : inp.cmd.isEmpty
  · rw [if_pos hc] at hx
    simp at hx
  · rw [if_neg hc] at hx
    have hA : ∀ y ∈ (signals_phase
        (init_phase sdk0 inp.env (" ".intercalate inp.cmd) inp.uuid inp.now)
        inp.signals inp.now).trans,
        y.1 ≠ "COMPLETED" ∧ y.1 ≠ "FAILED" := by
      intro y hy
      rcases signals_phase_trans_mem inp.signals inp.now _ y hy with h | ⟨n, hn⟩
      · rw [init_phase_trans_running sdk0 inp.env _ inp.uuid inp.now y h]
        exact ⟨by decide, by decide⟩
      · rw [hn]
        exact sig_status_ne_terminal n
    rcases final_phase_trans_shape
        (signals_phase (init_phase sdk0 inp.env (" ".intercalate inp.cmd) inp.uuid inp.now)
          inp.signals inp.now) inp.child inp.now with he | ⟨f, kw, he⟩
    · rw [he] at hx
      exact hA x (List.dropLast_subset _ hx)
    · rw [he, List.dropLast_concat] at hx
      exact hA x hx

/-- Witness for C9: a concrete local run (`echo`, one `SIGTSTP`, child exit
0) dispatches `[RUNNING, PAUSED, COMPLETED]`; the `PAUSED` entry lies before
the last position and is not terminal. -/
theorem c9_no_transition_after_terminal_witness :
    ("PAUSED", ([] : Kwargs)) ∈ (monitor_run
        (SDK.mk "N/A" "LocalTask" "N/A" "N/A" "N/A" "N/A" "N/A" none none)
        ⟨fun _ => none, ["echo"], [SIGTSTP], Except.ok 0, "u1", "t0"⟩).trans.dropLast
      ∧ ("PAUSED", ([] : Kwargs)).1 ≠ "COMPLETED"
      ∧ ("PAUSED", ([] : Kwargs)).1 ≠ "FAILED" := by
  exact ⟨by decide, c9_no_transition_after_terminal
    (SDK.mk "N/A" "LocalTask" "N/A" "N/A" "N/A" "N/A" "N/A" none none)
    ⟨fun _ => none, ["echo"], [SIGTSTP], Except.ok 0, "u1", "t0"⟩
    ("PAUSED", ([] : Kwargs)) (by decide)⟩

end SlurmAdmin
